import Mathlib

set_option maxRecDepth 100000

/-!
Verification of the `withdraw-commission` utility (`src/main.rs`).

The program is a one-shot pipeline: read a hex secret key from a file,
derive bech32 addresses, build a `MsgWithdrawValidatorCommission`
transaction, query the chain for account number / sequence, assemble and
sign a Cosmos `SignDoc`, and broadcast it.

The shallow embedding below translates `main.rs` step by step:

* pure library operations the program depends on for its observable
  byte-level output (protobuf encoding of the transaction messages,
  bech32 address encoding, hex decoding, secp256k1 secret-key
  validation) are translated into executable Lean functions;
* the external effects (file system, gRPC channel, account query,
  protobuf decode of the queried account, ECDSA signing, HTTP client,
  broadcast) are supplied by an `Ext` record of oracles, exactly the
  collaborators the specification declares out of scope;
* `runPipeline` is the linear control flow of `main`, returning the
  final outcome (`Ok` / returned error / panic), the ordered trace of
  external calls performed, and the `SignDoc` if one was constructed.

Machine integers: all integer values in the program are `u64` (account
number, sequence, gas, amounts) and are modelled as `Nat`; the only
overflow-relevant check in `main.rs` is `Height::try_from`, which
requires the value to fit in `i64`, modelled as `< 2 ^ 63`.
-/

namespace WithdrawCommission

/-! ## Protobuf wire encoding (prost semantics, as used by cosmrs) -/

/-- Little-endian base-128 varint groups, low 7 bits first, continuation
bit 0x80 on all but the last group.  The fuel argument `n + 1` is always
sufficient: each step divides by 128, so at most `log 128 n + 1 ≤ n + 1`
steps are taken. -/
def varintAux : Nat → Nat → List Nat
  | 0, _ => []
  | fuel + 1, n => if n < 128 then [n] else (n % 128 + 128) :: varintAux fuel (n / 128)

def varint (n : Nat) : List Nat := varintAux (n + 1) n

/-- Field tag byte(s): key = field number shifted left 3, or-ed with the wire type. -/
def tagBytes (field wire : Nat) : List Nat := varint (field * 8 + wire)

/-- A length-delimited field (wire type 2). -/
def lenDelim (field : Nat) (payload : List Nat) : List Nat :=
  tagBytes field 2 ++ varint payload.length ++ payload

/-- A varint field; proto3 omits fields holding the default value 0. -/
def vField (field : Nat) (n : Nat) : List Nat :=
  if n = 0 then [] else tagBytes field 0 ++ varint n

/-- UTF-8 bytes of a string.  Every string this program encodes (bech32
addresses, type URLs, memo, chain id, denom, decimal amounts) is ASCII,
where UTF-8 bytes coincide with code points. -/
def strBytes (s : String) : List Nat := s.data.map Char.toNat

/-- A string field; proto3 omits empty strings. -/
def sField (field : Nat) (s : String) : List Nat :=
  if s = "" then [] else lenDelim field (strBytes s)

/-- A bytes field; proto3 omits empty byte strings. -/
def bField (field : Nat) (bs : List Nat) : List Nat :=
  if bs = [] then [] else lenDelim field bs

/-! ## Bech32 address encoding (as performed by cosmrs `AccountId`) -/

def bech32Charset : List Char :=
  ['q', 'p', 'z', 'r', 'y', '9', 'x', '8', 'g', 'f', '2', 't', 'v', 'd', 'w', '0',
   's', '3', 'j', 'n', '5', '4', 'k', 'h', 'c', 'e', '6', 'm', 'u', 'a', '7', 'l']

def bech32Char (n : Nat) : Char := bech32Charset.getD n 'q'

def bech32Gen : List Nat := [0x3b6a57b2, 0x26508e6d, 0x1ea119fa, 0x3d4233dd, 0x2a1462b3]

def bech32PolymodStep (chk v : Nat) : Nat :=
  let b := chk >>> 25
  (List.range 5).foldl
    (fun c i => if (b >>> i) &&& 1 = 1 then c ^^^ bech32Gen.getD i 0 else c)
    (((chk &&& 0x1ffffff) <<< 5) ^^^ v)

def bech32Polymod (vals : List Nat) : Nat := vals.foldl bech32PolymodStep 1

def bech32HrpExpand (hrp : String) : List Nat :=
  hrp.data.map (fun c => c.toNat >>> 5) ++ [0] ++ hrp.data.map (fun c => c.toNat &&& 31)

def bech32Checksum (hrp : String) (data : List Nat) : List Nat :=
  (List.range 6).map
    (fun i =>
      ((bech32Polymod (bech32HrpExpand hrp ++ data ++ [0, 0, 0, 0, 0, 0]) ^^^ 1)
          >>> (5 * (5 - i))) &&& 31)

/-- `hrp ++ "1" ++ data chars ++ 6 checksum chars`. -/
def bech32Encode (hrp : String) (data : List Nat) : String :=
  String.mk (hrp.data ++ '1' :: (data ++ bech32Checksum hrp data).map bech32Char)

/-- Big-endian bit stream of a byte string. -/
def bytesToBits (bs : List Nat) : List Nat :=
  (bs.map (fun b => (List.range 8).map (fun i => (b >>> (7 - i)) &&& 1))).flatten

/-- Regroup a bit stream into 5-bit values, zero-padding the final group. -/
def bitsToBase5 : List Nat → List Nat
  | [] => []
  | [b0] => [16 * b0]
  | [b0, b1] => [16 * b0 + 8 * b1]
  | [b0, b1, b2] => [16 * b0 + 8 * b1 + 4 * b2]
  | [b0, b1, b2, b3] => [16 * b0 + 8 * b1 + 4 * b2 + 2 * b3]
  | b0 :: b1 :: b2 :: b3 :: b4 :: rest =>
    (16 * b0 + 8 * b1 + 4 * b2 + 2 * b3 + b4) :: bitsToBase5 rest

/-- `PublicKey::account_id(prefix)`: the bech32 encoding, under the given
human-readable prefix, of the 20-byte RIPEMD160-SHA256 digest of the
compressed public key (the digest itself is computed by the external
crypto layer, see `Ext.pubkeyHash`). -/
def accountIdStr (hrp : String) (digest : List Nat) : String :=
  bech32Encode hrp (bitsToBase5 (bytesToBits digest))

/-! ## Key file parsing: trim, hex decode, secp256k1 scalar check -/

/-- `str::trim`: drop whitespace from both ends. -/
def trimChars (l : List Char) : List Char :=
  ((l.dropWhile Char.isWhitespace).reverse.dropWhile Char.isWhitespace).reverse

def trimStr (s : String) : String := String.mk (trimChars s.data)

def hexVal (c : Char) : Option Nat :=
  if '0' ≤ c ∧ c ≤ '9' then some (c.toNat - 48)
  else if 'a' ≤ c ∧ c ≤ 'f' then some (c.toNat - 87)
  else if 'A' ≤ c ∧ c ≤ 'F' then some (c.toNat - 55)
  else none

/-- `hex::decode`: two hex digits per byte; fails on a non-hex character
or an odd number of digits. -/
def hexDecodeChars : List Char → Except String (List Nat)
  | [] => .ok []
  | [_] => .error "Odd number of digits"
  | a :: b :: rest =>
    match hexVal a, hexVal b, hexDecodeChars rest with
    | some hi, some lo, .ok bs => .ok ((16 * hi + lo) :: bs)
    | none, _, _ => .error "Invalid character"
    | _, none, _ => .error "Invalid character"
    | _, _, .error e => .error e

def hexDecode (s : String) : Except String (List Nat) := hexDecodeChars s.data

/-- Big-endian integer value of a byte string. -/
def beNat (bs : List Nat) : Nat := bs.foldl (fun a b => 256 * a + b) 0

/-- Order of the secp256k1 group. -/
def secpOrder : Nat :=
  0xFFFFFFFFFFFFFFFFFFFFFFFFFFFFFFFEBAAEDCE6AF48A03BBFD25E8CD0364141

/-- `SigningKey::from_slice` (k256) succeeds exactly on 32-byte strings
whose big-endian value is a nonzero scalar below the group order. -/
def validSecretKey (bs : List Nat) : Bool :=
  bs.length == 32 && decide (0 < beNat bs) && decide (beNat bs < secpOrder)

/-! ## Input validation performed by cosmrs / tendermint constructors -/

def denomTailChar (c : Char) : Bool :=
  c.isAlphanum || c == '/' || c == ':' || c == '.' || c == '_' || c == '-'

/-- `Denom::from_str`: 3–128 chars, leading letter, tail alphanumeric or
one of `/ : . _ -`. -/
def validDenom (s : String) : Bool :=
  decide (3 ≤ s.length) && decide (s.length ≤ 128) &&
    (match s.data with
     | [] => false
     | c :: rest => c.isAlpha && rest.all denomTailChar)

def chainIdChar (c : Char) : Bool :=
  c.isAlphanum || c == '-' || c == '_' || c == '.'

/-- `chain::Id::from_str` (tendermint): 1–50 chars drawn from
`[a-zA-Z0-9._-]`. -/
def validChainId (s : String) : Bool :=
  decide (1 ≤ s.length) && decide (s.length ≤ 50) && s.data.all chainIdChar

/-! ## Data model (the cosmrs types the program constructs) -/

/-- `prost_types::Any`: a type-tagged binary payload. -/
structure ProtoAny where
  type_url : String
  value : List Nat
deriving DecidableEq

structure Coin where
  denom : String
  amount : Nat
deriving DecidableEq

structure Fee where
  amount : List Coin
  gas_limit : Nat
  payer : Option String
  granter : Option String
deriving DecidableEq

def Fee.from_amount_and_gas (coin : Coin) (gas : Nat) : Fee :=
  { amount := [coin], gas_limit := gas, payer := none, granter := none }

/-- `tx::Body`: messages, memo, timeout height. -/
structure Body where
  messages : List ProtoAny
  memo : String
  timeout_height : Nat
deriving DecidableEq

structure MsgWithdrawValidatorCommission where
  validator_address : String
deriving DecidableEq

/-- `tx::SignerInfo` as produced by `single_direct`: optional public key
(compressed secp256k1 bytes) and a sequence number, with mode fixed to
`SIGN_MODE_DIRECT` (reflected in `encodeSignerInfo`). -/
structure SignerInfo where
  public_key : Option (List Nat)
  sequence : Nat
deriving DecidableEq

def SignerInfo.single_direct (pk : Option (List Nat)) (seq : Nat) : SignerInfo :=
  { public_key := pk, sequence := seq }

structure AuthInfo where
  signer_infos : List SignerInfo
  fee : Fee
deriving DecidableEq

/-- `tx::SignDoc`: cosmrs stores the already-encoded body and auth-info
bytes; we keep the structured values and recover the exact bytes with
`signDocBytes`. -/
structure SignDoc where
  body : Body
  auth_info : AuthInfo
  chain_id : String
  account_number : Nat
deriving DecidableEq

/-- `cosmos.auth.v1beta1.BaseAccount` (the fields the program reads). -/
structure BaseAccount where
  address : String
  account_number : Nat
  sequence : Nat
deriving DecidableEq

/-- `broadcast_tx_commit` response: hash plus result codes and logs of
the CheckTx and DeliverTx phases. -/
structure TxResponse where
  check_code : Nat
  deliver_code : Nat
  hash : List Nat
  log : String
deriving DecidableEq

/-- The command-line arguments (`Args` in `main.rs`). -/
structure Args where
  chain_id : String
  signing_key_path : String
  rpc_url : String
  grpc_url : String
  denom : String
  timeout_height : Nat

/-- External collaborators: file system, crypto primitives, protobuf
decode of the remote response, and the two network endpoints.  The
specification scopes these out of the program; each run consults them
through this record. -/
structure Ext where
  /-- `fs::read_to_string` on the key path. -/
  readFile : String → Except String String
  /-- Compressed SEC1 public key of a valid secret key (secp256k1 point
  multiplication; external crypto). -/
  pubkeyBytes : List Nat → List Nat
  /-- RIPEMD160 of SHA256 of the compressed public key (external crypto). -/
  pubkeyHash : List Nat → List Nat
  /-- `Channel::from_shared(url)?.connect()`. -/
  connect : String → Except String Unit
  /-- `QueryClient::account`: error, or a response whose `account` field
  is an optional `Any`. -/
  queryAccount : String → Except String (Option ProtoAny)
  /-- `BaseAccount::decode` on the `Any`'s value bytes (prost). -/
  decodeBaseAccount : List Nat → Except String BaseAccount
  /-- `sign_doc.sign(&signing_key)`: ECDSA over the signing bytes. -/
  sign : List Nat → List Nat → Except String (List Nat)
  /-- `HttpClient::new(rpc_url)`. -/
  newHttpClient : String → Except String Unit
  /-- `broadcast_tx_commit` on the raw transaction bytes. -/
  broadcast : List Nat → Except String TxResponse

/-- The observable external calls, in program order. -/
inductive Ev where
  | grpcConnect
  | accountQuery
  | signOp
  | broadcastTx
deriving DecidableEq

/-- How the process ends: `Ok(())` from `main`, an `Err` return (logged,
exit code 1), or a panic (`Option::unwrap` on `None`, exit code 101). -/
inductive Outcome where
  | ok (resp : TxResponse)
  | err (msg : String)
  | crash (msg : String)
deriving DecidableEq

/-- Exit status of the process for each outcome: `eyre` maps an `Err`
from `main` to status 1, a Rust panic terminates with status 101. -/
def exitCode : Outcome → Nat
  | .ok _ => 0
  | .err _ => 1
  | .crash _ => 101

structure RunResult where
  outcome : Outcome
  events : List Ev
  sign_doc : Option SignDoc
deriving DecidableEq

/-! ## Message encoders (prost `encode` of each cosmrs proto) -/

def encodeMsgWithdraw (m : MsgWithdrawValidatorCommission) : List Nat :=
  sField 1 m.validator_address

def withdrawTypeUrl : String :=
  "/cosmos.distribution.v1beta1.MsgWithdrawValidatorCommission"

/-- `Msg::to_any` for `MsgWithdrawValidatorCommission` (infallible: the
`Result` in cosmrs can only fail for other message types). -/
def msgToAny (m : MsgWithdrawValidatorCommission) : ProtoAny :=
  { type_url := withdrawTypeUrl, value := encodeMsgWithdraw m }

def encodeAny (a : ProtoAny) : List Nat :=
  sField 1 a.type_url ++ bField 2 a.value

def encodeCoin (c : Coin) : List Nat :=
  sField 1 c.denom ++ sField 2 (toString c.amount)

def encodeFee (f : Fee) : List Nat :=
  (f.amount.map (fun c => lenDelim 1 (encodeCoin c))).flatten ++
    vField 2 f.gas_limit ++ sField 3 (f.payer.getD "") ++ sField 4 (f.granter.getD "")

def pubKeyToAny (pk : List Nat) : ProtoAny :=
  { type_url := "/cosmos.crypto.secp256k1.PubKey", value := bField 1 pk }

/-- `SignerInfo` proto: public key `Any` (field 1), `ModeInfo/Single`
with `SIGN_MODE_DIRECT = 1` (field 2), sequence (field 3). -/
def encodeSignerInfo (si : SignerInfo) : List Nat :=
  (match si.public_key with
   | some pk => lenDelim 1 (encodeAny (pubKeyToAny pk))
   | none => []) ++
    lenDelim 2 (lenDelim 1 (vField 1 1)) ++ vField 3 si.sequence

def encodeAuthInfo (a : AuthInfo) : List Nat :=
  (a.signer_infos.map (fun si => lenDelim 1 (encodeSignerInfo si))).flatten ++
    lenDelim 2 (encodeFee a.fee)

def encodeBody (b : Body) : List Nat :=
  (b.messages.map (fun a => lenDelim 1 (encodeAny a))).flatten ++
    sField 2 b.memo ++ vField 3 b.timeout_height

/-- `SignDoc::into_bytes`: the canonical signing bytes — body bytes
(field 1), auth-info bytes (field 2), chain id (field 3), account number
(field 4). -/
def signDocBytes (d : SignDoc) : List Nat :=
  bField 1 (encodeBody d.body) ++ bField 2 (encodeAuthInfo d.auth_info) ++
    sField 3 d.chain_id ++ vField 4 d.account_number

/-- `TxRaw` bytes: body bytes, auth-info bytes, signatures. -/
def txRawBytes (bodyBytes authBytes : List Nat) (sigs : List (List Nat)) : List Nat :=
  bField 1 bodyBytes ++ bField 2 authBytes ++ (sigs.map (fun s => lenDelim 3 s)).flatten

/-! ## The pipeline's own constructions (named stages of `main`) -/

/-- `signing_key.public_key().account_id("somm")`. -/
def derivedAccountAddr (ext : Ext) (sk : List Nat) : String :=
  accountIdStr "somm" (ext.pubkeyHash (ext.pubkeyBytes sk))

/-- `signing_key.public_key().account_id("sommvaloper")`. -/
def derivedValoperAddr (ext : Ext) (sk : List Nat) : String :=
  accountIdStr "sommvaloper" (ext.pubkeyHash (ext.pubkeyBytes sk))

/-- `Body::new(vec![any], "Withdraw validator commission", height)` with
the single withdraw message targeting the validator-operator address. -/
def pipeBody (validatorOperatorAddress : String) (timeoutHeight : Nat) : Body :=
  { messages := [msgToAny { validator_address := validatorOperatorAddress }],
    memo := "Withdraw validator commission",
    timeout_height := timeoutHeight }

/-- `Fee::from_amount_and_gas(Coin::new(1000, denom), 200000)`. -/
def pipeFee (denom : String) : Fee :=
  Fee.from_amount_and_gas { denom := denom, amount := 1000 } 200000

def SignDoc.new (body : Body) (auth_info : AuthInfo) (chain_id : String)
    (account_number : Nat) : SignDoc :=
  { body := body, auth_info := auth_info, chain_id := chain_id,
    account_number := account_number }

/-- The assembly performed around `SignDoc::new` in `main`: a single
`SignerInfo::single_direct` from the public key and sequence, an
`AuthInfo` from it and the fee, bound to chain id and account number. -/
def assembleSignDoc (body : Body) (fee : Fee) (pk : List Nat) (seq : Nat)
    (chainId : String) (acct : Nat) : SignDoc :=
  SignDoc.new body
    { signer_infos := [SignerInfo.single_direct (some pk) seq], fee := fee }
    chainId acct

/-- The `SignDoc` a run constructs from secret key bytes `bs` and the
queried `BaseAccount` `ba`. -/
def pipeSignDoc (args : Args) (ext : Ext) (bs : List Nat) (ba : BaseAccount) : SignDoc :=
  assembleSignDoc (pipeBody (derivedValoperAddr ext bs) args.timeout_height)
    (pipeFee args.denom) (ext.pubkeyBytes bs) ba.sequence args.chain_id ba.account_number

/-- `tx_raw.to_bytes()` for the signed transaction of a run. -/
def pipeTxBytes (args : Args) (ext : Ext) (bs : List Nat) (ba : BaseAccount)
    (sig : List Nat) : List Nat :=
  txRawBytes (encodeBody (pipeSignDoc args ext bs ba).body)
    (encodeAuthInfo (pipeSignDoc args ext bs ba).auth_info) [sig]

/-- The linear control flow of `main`, in source order: read key file,
trim, hex decode, `SigningKey::from_slice`, derive both addresses, build
message and body (`Height::try_from` bounds the timeout height), build
the fee (`Coin::new` validates the denom), connect the gRPC channel,
query the account, `unwrap` the optional account object (a missing
account panics), decode `BaseAccount`, parse the chain id, assemble the
`SignDoc`, sign, create the HTTP client, and broadcast.  Every `Err`
branch reproduces the corresponding `return Err(...)` of `main.rs`. -/
def runPipeline (args : Args) (ext : Ext) : RunResult :=
  match ext.readFile args.signing_key_path with
  | .error e => ⟨.err ("Failed to read private key from file: " ++ e), [], none⟩
  | .ok raw =>
    match hexDecode (trimStr raw) with
    | .error e => ⟨.err ("Failed to decode private key: " ++ e), [], none⟩
    | .ok bs =>
      if validSecretKey bs then
        if args.timeout_height < 2 ^ 63 then
          if validDenom args.denom then
            match ext.connect args.grpc_url with
            | .error e => ⟨.err e, [.grpcConnect], none⟩
            | .ok _ =>
              match ext.queryAccount (derivedAccountAddr ext bs) with
              | .error e =>
                ⟨.err ("Failed to query account info: " ++ e),
                  [.grpcConnect, .accountQuery], none⟩
              | .ok none =>
                ⟨.crash "called Option::unwrap on a None value",
                  [.grpcConnect, .accountQuery], none⟩
              | .ok (some accountAny) =>
                match ext.decodeBaseAccount accountAny.value with
                | .error e =>
                  ⟨.err ("Failed to decode BaseAccount: " ++ e),
                    [.grpcConnect, .accountQuery], none⟩
                | .ok ba =>
                  if validChainId args.chain_id then
                    match ext.sign bs (signDocBytes (pipeSignDoc args ext bs ba)) with
                    | .error e =>
                      ⟨.err ("Failed to sign transaction: " ++ e),
                        [.grpcConnect, .accountQuery, .signOp],
                        some (pipeSignDoc args ext bs ba)⟩
                    | .ok sig =>
                      match ext.newHttpClient args.rpc_url with
                      | .error _ =>
                        ⟨.err "Failed to create client",
                          [.grpcConnect, .accountQuery, .signOp],
                          some (pipeSignDoc args ext bs ba)⟩
                      | .ok _ =>
                        match ext.broadcast (pipeTxBytes args ext bs ba sig) with
                        | .error e =>
                          ⟨.err ("Failed to broadcast transaction: " ++ e),
                            [.grpcConnect, .accountQuery, .signOp, .broadcastTx],
                            some (pipeSignDoc args ext bs ba)⟩
                        | .ok resp =>
                          ⟨.ok resp,
                            [.grpcConnect, .accountQuery, .signOp, .broadcastTx],
                            some (pipeSignDoc args ext bs ba)⟩
                  else
                    ⟨.err ("Failed to parse chain ID: " ++ args.chain_id),
                      [.grpcConnect, .accountQuery], none⟩
          else ⟨.err ("Failed to create coin: invalid denom: " ++ args.denom), [], none⟩
        else ⟨.err "timeout height out of range", [], none⟩
      else ⟨.err "Failed to create signing key: signature error", [], none⟩

/-! ## Concrete fixtures used by the witnesses -/

/-- A 32-byte key, hex-encoded: 64 copies of the digit 1. -/
def keyHex : String :=
  "1111111111111111111111111111111111111111111111111111111111111111"

def skBytesOk : List Nat := List.replicate 32 17

def argsOk : Args :=
  { chain_id := "sommelier-3", signing_key_path := "/keys/validator",
    rpc_url := "https://rpc.example:443", grpc_url := "https://grpc.example:9090",
    denom := "usomm", timeout_height := 0 }

def baOk : BaseAccount :=
  { address := "somm1example", account_number := 7, sequence := 9 }

def anyOk : ProtoAny :=
  { type_url := "/cosmos.auth.v1beta1.BaseAccount", value := [10, 1, 97] }

/-- A broadcast response whose DeliverTx code is nonzero: the chain
rejected the transaction even though the call returned a response. -/
def respRejected : TxResponse :=
  { check_code := 0, deliver_code := 5, hash := [222, 173, 190, 239],
    log := "insufficient fee" }

def extOk : Ext :=
  { readFile := fun _ => .ok keyHex
    pubkeyBytes := fun _ => 2 :: List.replicate 32 17
    pubkeyHash := fun _ => List.replicate 20 3
    connect := fun _ => .ok ()
    queryAccount := fun _ => .ok (some anyOk)
    decodeBaseAccount := fun _ => .ok baOk
    sign := fun _ _ => .ok (List.replicate 64 5)
    newHttpClient := fun _ => .ok ()
    broadcast := fun _ => .ok respRejected }

def extDeadbeef : Ext := { extOk with readFile := fun _ => .ok "deadbeef" }

def extNoAccount : Ext := { extOk with queryAccount := fun _ => .ok none }

def extQueryFail : Ext :=
  { extOk with queryAccount := fun _ => .error "transport error" }

/-! ## Helper lemmas -/

theorem bech32Checksum_length (hrp : String) (data : List Nat) :
    (bech32Checksum hrp data).length = 6 := by
  simp [bech32Checksum]

theorem bech32Encode_data_length (hrp : String) (data : List Nat) :
    (bech32Encode hrp data).data.length = hrp.data.length + 1 + (data.length + 6) := by
  simp [bech32Encode, bech32Checksum_length]
  omega

/-- Two bech32 encodings of the same data under the prefixes `somm` and
`sommvaloper` differ: their lengths differ by the prefix lengths. -/
theorem accountIdStr_ne (d : List Nat) :
    accountIdStr "somm" d ≠ accountIdStr "sommvaloper" d := by
  intro h
  have hlen := congrArg (fun s => s.data.length) h
  simp only [accountIdStr, bech32Encode_data_length] at hlen
  have h4 : "somm".data.length = 4 := rfl
  have h11 : "sommvaloper".data.length = 11 := rfl
  rw [h4, h11] at hlen
  omega

/-! ## Claims -/

/-- C1: for every fixed tuple (body, fee, signer public key, sequence,
chain id, account number), assembling the SigningDocument twice yields
byte-identical signing bytes: `SignDoc` construction is a pure
deterministic function of exactly those six inputs. -/
theorem signDoc_deterministic (b b' : Body) (f f' : Fee) (pk pk' : List Nat)
    (s s' : Nat) (c c' : String) (a a' : Nat)
    (hb : b = b') (hf : f = f') (hpk : pk = pk') (hs : s = s') (hc : c = c')
    (ha : a = a') :
    signDocBytes (assembleSignDoc b f pk s c a) =
      signDocBytes (assembleSignDoc b' f' pk' s' c' a') := by
  subst hb hf hpk hs hc ha
  rfl

/-- C1 witness: the determinism theorem applied at a concrete sextuple. -/
theorem signDoc_deterministic_witness :
    signDocBytes (assembleSignDoc (pipeBody "sommvaloperaddr" 0) (pipeFee "usomm")
        (2 :: List.replicate 32 17) 9 "sommelier-3" 7) =
      signDocBytes (assembleSignDoc (pipeBody "sommvaloperaddr" 0) (pipeFee "usomm")
        (2 :: List.replicate 32 17) 9 "sommelier-3" 7) :=
  signDoc_deterministic _ _ _ _ _ _ _ _ _ _ _ _ rfl rfl rfl rfl rfl rfl

/-- C2: every malformed key file is fatal before any external call: an
unreadable file fails with the key-load error, non-hex contents with the
hex-decode error, and hex contents whose byte length is not 32 with the
signing-key construction error; in each case the trace of external calls
is empty, so no network call is attempted. -/
theorem key_stage_failures (args : Args) (ext : Ext) :
    (∀ e, ext.readFile args.signing_key_path = .error e →
      runPipeline args ext =
        ⟨.err ("Failed to read private key from file: " ++ e), [], none⟩) ∧
    (∀ s e, ext.readFile args.signing_key_path = .ok s →
      hexDecode (trimStr s) = .error e →
      runPipeline args ext =
        ⟨.err ("Failed to decode private key: " ++ e), [], none⟩) ∧
    (∀ s bs, ext.readFile args.signing_key_path = .ok s →
      hexDecode (trimStr s) = .ok bs → bs.length ≠ 32 →
      runPipeline args ext =
        ⟨.err "Failed to create signing key: signature error", [], none⟩) := by
  refine ⟨?_, ?_, ?_⟩
  · intro e h
    simp [runPipeline, h]
  · intro s e h1 h2
    simp [runPipeline, h1, h2]
  · intro s bs h1 h2 h3
    have hv : validSecretKey bs = false := by
      simp [validSecretKey, h3]
    simp [runPipeline, h1, h2, hv]

/-- C2 witness: a key file containing "deadbeef" decodes to 4 bytes; the
run fails at the signing-key stage with no external call. -/
theorem key_stage_failures_witness :
    hexDecode (trimStr "deadbeef") = .ok [222, 173, 190, 239] ∧
    runPipeline argsOk extDeadbeef =
      ⟨.err "Failed to create signing key: signature error", [], none⟩ :=
  ⟨rfl, (key_stage_failures argsOk extDeadbeef).2.2 "deadbeef" [222, 173, 190, 239]
    rfl rfl (by decide)⟩

/-- C3: for every 32-byte secret key, address derivation is
deterministic — equal keys yield equal account addresses and equal
validator-operator addresses — and the two derived addresses always
differ, because they use the distinct bech32 prefixes `somm` and
`sommvaloper`. -/
theorem address_derivation (ext : Ext) (sk sk' : List Nat)
    (h32 : sk.length = 32) (heq : sk = sk') :
    derivedAccountAddr ext sk = derivedAccountAddr ext sk' ∧
    derivedValoperAddr ext sk = derivedValoperAddr ext sk' ∧
    derivedAccountAddr ext sk ≠ derivedValoperAddr ext sk := by
  subst heq
  exact ⟨rfl, rfl, accountIdStr_ne _⟩

/-- C3 witness: the derivation theorem applied at a concrete 32-byte key. -/
theorem address_derivation_witness :
    (List.replicate 32 17).length = 32 ∧
    derivedAccountAddr extOk (List.replicate 32 17) ≠
      derivedValoperAddr extOk (List.replicate 32 17) :=
  ⟨by decide,
    (address_derivation extOk (List.replicate 32 17) (List.replicate 32 17)
      (by decide) rfl).2.2⟩

/-- C4: the transaction body contains exactly one operation payload, the
withdraw-commission message, whose validator-address field is the
derived validator-operator (valoper) address — which is never the plain
account address — and that body is the one bound into the SignDoc. -/
theorem body_single_withdraw_message (args : Args) (ext : Ext) (bs : List Nat)
    (ba : BaseAccount) :
    (pipeBody (derivedValoperAddr ext bs) args.timeout_height).messages =
      [msgToAny { validator_address := derivedValoperAddr ext bs }] ∧
    (msgToAny { validator_address := derivedValoperAddr ext bs }).type_url =
      "/cosmos.distribution.v1beta1.MsgWithdrawValidatorCommission" ∧
    (msgToAny { validator_address := derivedValoperAddr ext bs }).value =
      encodeMsgWithdraw { validator_address := derivedValoperAddr ext bs } ∧
    derivedValoperAddr ext bs ≠ derivedAccountAddr ext bs ∧
    (pipeSignDoc args ext bs ba).body =
      pipeBody (derivedValoperAddr ext bs) args.timeout_height :=
  ⟨rfl, rfl, rfl, fun h => accountIdStr_ne _ h.symm, rfl⟩

/-- C5 (code observation): when the account query succeeds but the
response contains no account object, the program does not take the
descriptive-error path it uses for connection failures and malformed
responses; it panics on `Option::unwrap` (process aborts with exit
status 101, without the stage-named log line). -/
theorem missing_account_crashes :
    runPipeline argsOk extNoAccount =
      ⟨.crash "called Option::unwrap on a None value",
        [.grpcConnect, .accountQuery], none⟩ ∧
    exitCode (runPipeline argsOk extNoAccount).outcome = 101 := by
  exact ⟨by decide, by decide⟩

/-- C6: the sequence number in the SignerInfo is exactly the sequence
obtained from the account-metadata query, and the signing document is
bound to the account number from that query and to the configured chain
identifier. -/
theorem signdoc_uses_queried_metadata (args : Args) (ext : Ext) (s : String)
    (bs : List Nat) (anyv : ProtoAny) (ba : BaseAccount)
    (h1 : ext.readFile args.signing_key_path = .ok s)
    (h2 : hexDecode (trimStr s) = .ok bs)
    (h3 : validSecretKey bs = true)
    (h4 : args.timeout_height < 2 ^ 63)
    (h5 : validDenom args.denom = true)
    (h6 : ext.connect args.grpc_url = .ok ())
    (h7 : ext.queryAccount (derivedAccountAddr ext bs) = .ok (some anyv))
    (h8 : ext.decodeBaseAccount anyv.value = .ok ba)
    (h9 : validChainId args.chain_id = true) :
    (runPipeline args ext).sign_doc = some (pipeSignDoc args ext bs ba) ∧
    (pipeSignDoc args ext bs ba).auth_info.signer_infos =
      [SignerInfo.single_direct (some (ext.pubkeyBytes bs)) ba.sequence] ∧
    (pipeSignDoc args ext bs ba).account_number = ba.account_number ∧
    (pipeSignDoc args ext bs ba).chain_id = args.chain_id := by
  refine ⟨?_, rfl, rfl, rfl⟩
  simp only [runPipeline, h1, h2, h3, h4, h5, h6, h7, h8, h9, if_pos, if_true]
  cases hs : ext.sign bs (signDocBytes (pipeSignDoc args ext bs ba)) with
  | error e => simp [hs]
  | ok sig =>
    cases hc : ext.newHttpClient args.rpc_url with
    | error e => simp [hc]
    | ok u =>
      cases hb : ext.broadcast (pipeTxBytes args ext bs ba sig) with
      | error e => simp [hb]
      | ok r => simp [hb]

/-- C6 witness: the binding theorem applied to a concrete successful
query returning account number 7 and sequence 9. -/
theorem signdoc_uses_queried_metadata_witness :
    validSecretKey skBytesOk = true ∧
    (runPipeline argsOk extOk).sign_doc =
      some (pipeSignDoc argsOk extOk skBytesOk baOk) :=
  ⟨by decide,
    (signdoc_uses_queried_metadata argsOk extOk keyHex skBytesOk anyOk baOk
      rfl rfl (by decide) (by decide) (by decide) rfl rfl rfl (by decide)).1⟩

/-- C7: the fee is the constant policy — a single coin of exactly 1000
units of the configured denomination and gas limit exactly 200000 — and
the fee embedded in any run's SignDoc depends on no input other than the
denom string. -/
theorem fee_constants (denom : String) (args : Args) (ext : Ext) (bs : List Nat)
    (ba : BaseAccount) :
    (pipeFee denom).amount = [{ denom := denom, amount := 1000 }] ∧
    (pipeFee denom).gas_limit = 200000 ∧
    (pipeSignDoc args ext bs ba).auth_info.fee = pipeFee args.denom :=
  ⟨rfl, rfl, rfl⟩

/-- C8: if the account-metadata query fails — the gRPC endpoint cannot be
reached, or the remote call returns an error — the run aborts during the
account-resolution stage: the outcome is the corresponding error, no
SignDoc is ever constructed, and neither the signing operation nor the
broadcast call appears in the trace. -/
theorem account_query_failure_aborts (args : Args) (ext : Ext) (s : String)
    (bs : List Nat)
    (h1 : ext.readFile args.signing_key_path = .ok s)
    (h2 : hexDecode (trimStr s) = .ok bs)
    (h3 : validSecretKey bs = true)
    (h4 : args.timeout_height < 2 ^ 63)
    (h5 : validDenom args.denom = true) :
    (∀ e, ext.connect args.grpc_url = .error e →
      runPipeline args ext = ⟨.err e, [.grpcConnect], none⟩) ∧
    (∀ e, ext.connect args.grpc_url = .ok () →
      ext.queryAccount (derivedAccountAddr ext bs) = .error e →
      runPipeline args ext =
        ⟨.err ("Failed to query account info: " ++ e),
          [.grpcConnect, .accountQuery], none⟩) := by
  constructor
  · intro e h6
    simp [runPipeline, h1, h2, h3, h4, h5, h6]
    omega
  · intro e h6 h7
    simp [runPipeline, h1, h2, h3, h4, h5, h6, h7]
    omega

/-- C8 witness: a concrete run whose account query returns a transport
error aborts with the account-query error and an event trace without
signing or broadcasting. -/
theorem account_query_failure_aborts_witness :
    runPipeline argsOk extQueryFail =
      ⟨.err "Failed to query account info: transport error",
        [.grpcConnect, .accountQuery], none⟩ :=
  (account_query_failure_aborts argsOk extQueryFail keyHex skBytesOk
      rfl rfl (by decide) (by decide) (by decide)).2 "transport error" rfl rfl

/-- C9: the process exit status is nonzero exactly on pipeline failure —
an error return exits 1, a panic exits 101 — while obtaining any
broadcast response, whatever on-chain result code it carries, completes
the run with `Ok` and exit status 0. -/
theorem exit_status_semantics (args : Args) (ext : Ext) :
    (∀ m, (runPipeline args ext).outcome = .err m →
      exitCode (runPipeline args ext).outcome = 1) ∧
    (∀ m, (runPipeline args ext).outcome = .crash m →
      exitCode (runPipeline args ext).outcome = 101) ∧
    (∀ r, (runPipeline args ext).outcome = .ok r →
      exitCode (runPipeline args ext).outcome = 0) ∧
    (∀ s bs anyv ba sig r,
      ext.readFile args.signing_key_path = .ok s →
      hexDecode (trimStr s) = .ok bs →
      validSecretKey bs = true →
      args.timeout_height < 2 ^ 63 →
      validDenom args.denom = true →
      ext.connect args.grpc_url = .ok () →
      ext.queryAccount (derivedAccountAddr ext bs) = .ok (some anyv) →
      ext.decodeBaseAccount anyv.value = .ok ba →
      validChainId args.chain_id = true →
      ext.sign bs (signDocBytes (pipeSignDoc args ext bs ba)) = .ok sig →
      ext.newHttpClient args.rpc_url = .ok () →
      ext.broadcast (pipeTxBytes args ext bs ba sig) = .ok r →
      runPipeline args ext =
        ⟨.ok r, [.grpcConnect, .accountQuery, .signOp, .broadcastTx],
          some (pipeSignDoc args ext bs ba)⟩) := by
  refine ⟨?_, ?_, ?_, ?_⟩
  · intro m h
    rw [h]
    rfl
  · intro m h
    rw [h]
    rfl
  · intro r h
    rw [h]
    rfl
  · intro s bs anyv ba sig r h1 h2 h3 h4 h5 h6 h7 h8 h9 h10 h11 h12
    simp [runPipeline, h1, h2, h3, h4, h5, h6, h7, h8, h9, h10, h11, h12]
    omega

/-- C9 witness: a concrete run whose broadcast response carries the
nonzero DeliverTx code 5 still ends in `Ok` with exit status 0. -/
theorem exit_status_semantics_witness :
    respRejected.deliver_code ≠ 0 ∧
    runPipeline argsOk extOk =
      ⟨.ok respRejected, [.grpcConnect, .accountQuery, .signOp, .broadcastTx],
        some (pipeSignDoc argsOk extOk skBytesOk baOk)⟩ :=
  ⟨by decide,
    (exit_status_semantics argsOk extOk).2.2.2 keyHex skBytesOk anyOk baOk
      (List.replicate 64 5) respRejected rfl rfl (by decide) (by decide)
      (by decide) rfl rfl rfl (by decide) rfl rfl rfl⟩

/-- C10: the body's memo is exactly the fixed string
"Withdraw validator commission" in every run that assembles a
transaction. -/
theorem memo_constant (v : String) (t : Nat) (args : Args) (ext : Ext)
    (bs : List Nat) (ba : BaseAccount) :
    (pipeBody v t).memo = "Withdraw validator commission" ∧
    (pipeSignDoc args ext bs ba).body.memo = "Withdraw validator commission" :=
  ⟨rfl, rfl⟩

end WithdrawCommission
